import Mathlib

/-!
Verification of the power-assertion service client (`src/power.c`) and the
`idevicepower` driver (`tools/idevicepower.c`) of libimobiledevice.

The C code is shallowly embedded: the transport collaborator
(`property_list_service_*`) is an oracle supplied as an explicit argument
recording what the transport reports and what it writes into its output
parameters; pointers that the C code may dereference when null are modelled
as `Option`, with `none` denoting a null pointer and a `none` result of a
whole operation denoting the undefined behaviour of dereferencing null.
-/

namespace LibPower

/-- A property-list value of the shapes the driver builds (string, uint). -/
inductive PlistVal where
  | str (s : String)
  | uint (n : Nat)
  deriving DecidableEq, Repr

/-- A plist document, as far as this slice manipulates one: an ordered
dictionary of keyed values.  The client layer treats documents opaquely. -/
abbrev Plist := List (String × PlistVal)

/-- The transport's error domain (`property_list_service_error_t`).  The named
constructors are the codes that `power_error` matches on; `otherCode z`
stands for any code of the open C enumeration outside that list (including
`PROPERTY_LIST_SERVICE_E_UNKNOWN_ERROR`). -/
inductive PropertyListServiceError where
  | success
  | invalidArg
  | plistError
  | muxError
  | sslError
  | notEnoughData
  | receiveTimeout
  | otherCode (z : Int)
  deriving DecidableEq, Repr

/-- The service's error domain (`power_error_t` in `power.h`). -/
inductive PowerError where
  | success
  | invalidArg
  | plistError
  | muxError
  | sslError
  | notEnoughData
  | timeout
  | unknownError
  deriving DecidableEq, Repr

/-- The fixed integer encoding of `power_error_t` from `power.h`. -/
def powerErrorCode : PowerError → Int
  | .success => 0
  | .invalidArg => -1
  | .plistError => -2
  | .muxError => -3
  | .sslError => -4
  | .notEnoughData => -5
  | .timeout => -6
  | .unknownError => -256

/-- `power_error` (`power.c:42`): translate a transport error code into a
`power_error_t`, with `POWER_E_UNKNOWN_ERROR` as the default arm. -/
def power_error : PropertyListServiceError → PowerError
  | .success => .success
  | .invalidArg => .invalidArg
  | .plistError => .plistError
  | .muxError => .muxError
  | .sslError => .sslError
  | .notEnoughData => .notEnoughData
  | .receiveTimeout => .timeout
  | .otherCode _ => .unknownError

/-- An opaque `property_list_service_client_t` handle. -/
structure PLClient where
  id : Nat
  deriving DecidableEq, Repr

/-- `struct power_client_private`: wraps the transport client handle
(`parent`), which the C code never checks for null. -/
structure PowerClientPriv where
  parent : Option PLClient
  deriving DecidableEq, Repr

/-- An opaque `idevice_t` handle. -/
structure Device where
  id : Nat
  deriving DecidableEq, Repr

/-- A `lockdownd_service_descriptor_t`: only the `port` field is read. -/
structure ServiceDescriptor where
  port : Nat
  deriving DecidableEq, Repr

/-- Observable effects of one `power_client_new` call: the returned error
code, the final contents of the caller's (non-null) client slot, and whether
the transport primitive `property_list_service_client_new` was invoked. -/
structure NewResult where
  ret : PowerError
  slot : Option PowerClientPriv
  transportCalled : Bool
  deriving DecidableEq, Repr

/-- `power_client_new` (`power.c:65`).  `clientPtr` is the `client` out
pointer: `none` is a null pointer (dereferenced by `*client = NULL` before
any check, hence the `none` crash result), `some prior` a valid slot holding
`prior`.  `plNew` is the oracle for `property_list_service_client_new`: the
error it reports and the handle it writes. -/
def power_client_new (device : Option Device) (service : Option ServiceDescriptor)
    (clientPtr : Option (Option PowerClientPriv))
    (plNew : PropertyListServiceError × Option PLClient) : Option NewResult :=
  match clientPtr with
  | none => none
  | some _ =>
    let slot : Option PowerClientPriv := none
    if device = none ∨ service = none ∨ (Option.map ServiceDescriptor.port service = some 0)
        ∨ slot ≠ none then
      some { ret := .invalidArg, slot := slot, transportCalled := false }
    else
      let ret := power_error plNew.1
      if ret ≠ PowerError.success then
        some { ret := ret, slot := slot, transportCalled := true }
      else
        some { ret := .success, slot := some ⟨plNew.2⟩, transportCalled := true }

/-- Observable effects of one `power_send` call. -/
structure SendResult where
  ret : PowerError
  transportCalled : Bool
  deriving DecidableEq, Repr

/-- `power_send` (`power.c:110`).  The C body performs no argument check: it
immediately dereferences `client->parent` (crash on a null client) and hands
`plist` — null or not — to `property_list_service_send_binary_plist`, whose
reported error the oracle `sendTransport` gives as a function of the plist
argument. -/
def power_send (client : Option PowerClientPriv)
    (sendTransport : Option Plist → PropertyListServiceError)
    (plist : Option Plist) : Option SendResult :=
  match client with
  | none => none
  | some _ =>
    some { ret := power_error (sendTransport plist), transportCalled := true }

/-- Observable effects of one `power_receive_with_timeout` call: the returned
error code, the final contents of the caller's plist slot (`none` when the
plist pointer itself was null), the documents released internally via
`plist_free`, and whether the transport receive was invoked. -/
structure ReceiveResult where
  ret : PowerError
  slot : Option (Option Plist)
  freed : List Plist
  transportCalled : Bool
  deriving DecidableEq, Repr

/-- `power_receive_with_timeout` (`power.c:130`).  `plistPtr` is the `plist`
out pointer (`none` = null pointer, `some prior` = valid slot holding
`prior`).  `transport` is the oracle for
`property_list_service_receive_plist_with_timeout`, giving for the passed
timeout the reported error and the value it leaves in `outplist`.  The C body
checks no argument: a null client crashes on `client->parent`; on
`res != POWER_E_SUCCESS || !outplist` it frees `outplist` and returns
`POWER_E_MUX_ERROR`, otherwise it stores `outplist` through `plist`. -/
def power_receive_with_timeout (client : Option PowerClientPriv)
    (plistPtr : Option (Option Plist))
    (transport : Nat → PropertyListServiceError × Option Plist)
    (timeout_ms : Nat) : Option ReceiveResult :=
  match client with
  | none => none
  | some _ =>
    let t := transport timeout_ms
    let res := power_error t.1
    let outplist := t.2
    if res ≠ PowerError.success ∨ outplist = none then
      some { ret := .muxError, slot := plistPtr, freed := outplist.toList,
             transportCalled := true }
    else
      match plistPtr with
      | none => none
      | some _ =>
        some { ret := res, slot := some outplist, freed := [], transportCalled := true }

/-- `power_receive` (`power.c:125`): the default-timeout variant, a direct
call of `power_receive_with_timeout` with 1000 ms. -/
def power_receive (client : Option PowerClientPriv)
    (plistPtr : Option (Option Plist))
    (transport : Nat → PropertyListServiceError × Option Plist) : Option ReceiveResult :=
  power_receive_with_timeout client plistPtr transport 1000

/-! ## The `idevicepower` driver (`tools/idevicepower.c`) -/

/-- `enum cmd_mode` of the driver. -/
inductive CmdMode where
  | cmdNone
  | wirelessSync
  | userIdleSleep
  | systemSleep
  deriving DecidableEq, Repr

/-- The sub-command recognition of `main` (`idevicepower.c:154`): `strcmp`
against the three known sub-commands, leaving `CMD_NONE` otherwise. -/
def parseCmd (s : String) : CmdMode :=
  if s = "sync" then .wirelessSync
  else if s = "idle" then .userIdleSleep
  else if s = "sleep" then .systemSleep
  else .cmdNone

/-- The request document built by `main` (`idevicepower.c:199`): the command
key, the assertion type selected by the sub-command `switch`, then the fixed
name, the caller's timeout and the fixed detail string, in insertion order. -/
def buildAssertion (cmd : CmdMode) (timeout : Nat) : Plist :=
  [("CommandKey", PlistVal.str "CommandCreateAssertion")]
  ++ (match cmd with
      | .wirelessSync => [("AssertionTypeKey", PlistVal.str "AMDPowerAssertionTypeWirelessSync")]
      | .userIdleSleep => [("AssertionTypeKey", PlistVal.str "PreventUserIdleSystemSleep")]
      | .systemSleep => [("AssertionTypeKey", PlistVal.str "PreventSystemSleep")]
      | .cmdNone => [])
  ++ [("AssertionNameKey", PlistVal.str "idevicepower"),
      ("AssertionTimeoutKey", PlistVal.uint timeout),
      ("AssertionDetailKey", PlistVal.str "power update")]

/-- Outcomes of the driver's external collaborators for one invocation:
whether device lookup, the lockdown handshake and the service start succeed,
the started service's port, and the transport oracles passed on to the
embedded client operations. -/
structure DriverEnv where
  ideviceNew : Bool
  lockdownHandshake : Bool
  lockdownStart : Bool
  servicePort : Nat
  clientNew : PropertyListServiceError × Option PLClient
  sendTransport : Option Plist → PropertyListServiceError
  recvTransport : Nat → PropertyListServiceError × Option Plist

/-- Observable effects of one driver run: the process exit status, whether
device resolution (`idevice_new_with_options`) was attempted, the document
passed to `power_send` (if the send was reached), and the duration of the
hold `sleep` (if reached). -/
structure DriverResult where
  exitCode : Nat
  resolutionAttempted : Bool
  sentDoc : Option Plist
  sleepSeconds : Option Nat
  deriving DecidableEq, Repr

/-- The failure result shared by the driver's early-exit paths: `result`
stays `EXIT_FAILURE` and neither send nor hold is reached. -/
def driverFail (resolved : Bool) : DriverResult :=
  { exitCode := 1, resolutionAttempted := resolved, sentDoc := none, sleepSeconds := none }

/-- `main` of `idevicepower.c` from the sub-command dispatch (line 154)
onward, after option parsing has succeeded and a command word `cmdArg` with a
positive `timeout` is in hand.  An unknown sub-command prints usage and jumps
to `cleanup`, returning `result` (still `EXIT_FAILURE`); each failed external
stage likewise exits with `EXIT_FAILURE`; once the power client is connected
the assertion document is built and sent, the acknowledgement awaited, and —
whatever the exchange's outcome — the hold sleep of
`timeout > 10 ? timeout - 10 : timeout` seconds is performed;
`result` becomes `EXIT_SUCCESS` only when both send and receive succeeded. -/
def driver_main (cmdArg : String) (timeout : Nat) (env : DriverEnv) : DriverResult :=
  let cmd := parseCmd cmdArg
  if cmd = CmdMode.cmdNone then driverFail false
  else if env.ideviceNew = false then driverFail true
  else if env.lockdownHandshake = false then driverFail true
  else if env.lockdownStart = false then driverFail true
  else if env.servicePort = 0 then driverFail true
  else
    match power_client_new (some ⟨0⟩) (some ⟨env.servicePort⟩) (some none) env.clientNew with
    | none => driverFail true
    | some r =>
      if r.ret ≠ PowerError.success then driverFail true
      else
        let assertion := buildAssertion cmd timeout
        let hold := if timeout > 10 then timeout - 10 else timeout
        match power_send r.slot env.sendTransport (some assertion) with
        | none => driverFail true
        | some s =>
          if s.ret ≠ PowerError.success then
            { exitCode := 1, resolutionAttempted := true, sentDoc := some assertion,
              sleepSeconds := some hold }
          else
            match power_receive r.slot (some none) env.recvTransport with
            | none => driverFail true
            | some rcv =>
              { exitCode := if rcv.ret = PowerError.success then 0 else 1,
                resolutionAttempted := true, sentDoc := some assertion,
                sleepSeconds := some hold }

/-! ## Claim theorems: the client layer -/

/-- C5: the transport-to-service error translation `power_error` is a total,
deterministic function mapping each named transport code to its counterpart
(`RECEIVE_TIMEOUT` to `POWER_E_TIMEOUT`) and every transport code outside
the named list to `POWER_E_UNKNOWN_ERROR`. -/
theorem c5_power_error_total_mapping :
    power_error .success = .success ∧
    power_error .invalidArg = .invalidArg ∧
    power_error .plistError = .plistError ∧
    power_error .muxError = .muxError ∧
    power_error .sslError = .sslError ∧
    power_error .notEnoughData = .notEnoughData ∧
    power_error .receiveTimeout = .timeout ∧
    ∀ z : Int, power_error (.otherCode z) = .unknownError :=
  ⟨rfl, rfl, rfl, rfl, rfl, rfl, rfl, fun _ => rfl⟩

/-- C1 (refuted by the code, kept as the code's actual behaviour at the
failing inputs): when the transport reports `RECEIVE_TIMEOUT`, or reports
`PLIST_ERROR`, `power_receive_with_timeout` returns `POWER_E_MUX_ERROR` —
not `POWER_E_TIMEOUT`, and not `POWER_E_PLIST_ERROR` as the claim and the
header documentation state. -/
theorem c1_receive_collapses_timeout_and_plist_error :
    (power_receive_with_timeout (some ⟨none⟩) (some none)
        (fun _ => (PropertyListServiceError.receiveTimeout, none)) 500 =
      some { ret := PowerError.muxError, slot := some none, freed := [],
             transportCalled := true }) ∧
    (power_receive_with_timeout (some ⟨none⟩) (some none)
        (fun _ => (PropertyListServiceError.plistError, none)) 500 =
      some { ret := PowerError.muxError, slot := some none, freed := [],
             transportCalled := true }) ∧
    PowerError.muxError ≠ PowerError.timeout ∧
    PowerError.muxError ≠ PowerError.plistError := by
  refine ⟨rfl, rfl, by decide, by decide⟩

/-- C2: if the transport receive reports success but supplies no document,
`power_receive_with_timeout` returns `POWER_E_MUX_ERROR` (never success);
and on every `POWER_E_SUCCESS` return the caller's slot holds the non-null
document the transport supplied. -/
theorem c2_receive_success_has_document (c : PowerClientPriv)
    (pl : Option (Option Plist)) (tr : Nat → PropertyListServiceError × Option Plist)
    (tms : Nat) (r : ReceiveResult)
    (h : power_receive_with_timeout (some c) pl tr tms = some r) :
    ((tr tms).1 = PropertyListServiceError.success ∧ (tr tms).2 = none →
      r.ret = PowerError.muxError ∧ r.ret ≠ PowerError.success) ∧
    (r.ret = PowerError.success →
      ∃ d, (tr tms).2 = some d ∧ r.slot = some (some d)) := by
  simp only [power_receive_with_timeout] at h
  split at h
  · obtain rfl := Option.some.inj h
    exact ⟨fun _ => ⟨rfl, fun hs => PowerError.noConfusion hs⟩, fun hs => PowerError.noConfusion hs⟩
  · rename_i hcond
    rw [not_or] at hcond
    obtain ⟨hres, hdoc⟩ := hcond
    rw [not_ne_iff] at hres
    obtain ⟨d, hd⟩ := Option.ne_none_iff_exists.mp hdoc
    split at h
    · exact absurd h (by simp)
    · obtain rfl := Option.some.inj h
      exact ⟨fun hx => absurd hx.2 hdoc, fun _ => ⟨d, hd.symm, by rw [hd]⟩⟩

/-- C2 witness at a concrete input. -/
theorem c2_receive_success_has_document_witness :
    ∃ d, ((fun _ : Nat => (PropertyListServiceError.success,
            some ([("k", PlistVal.uint 1)] : Plist))) 1000).2 = some d := by
  have h := c2_receive_success_has_document ⟨none⟩ (some none)
    (fun _ => (PropertyListServiceError.success, some [("k", PlistVal.uint 1)])) 1000
    { ret := PowerError.success, slot := some (some [("k", PlistVal.uint 1)]),
      freed := [], transportCalled := true } rfl
  obtain ⟨d, hd, _⟩ := h.2 rfl
  exact ⟨d, hd⟩

/-- C9: on every failure return of `power_receive_with_timeout` the caller's
slot is left untouched and whatever document the transport produced is
released internally; the slot is written, and nothing freed, exactly on the
success path. -/
theorem c9_receive_failure_frame (c : PowerClientPriv) (prior : Option Plist)
    (tr : Nat → PropertyListServiceError × Option Plist) (tms : Nat) (r : ReceiveResult)
    (h : power_receive_with_timeout (some c) (some prior) tr tms = some r) :
    (r.ret ≠ PowerError.success →
      r.slot = some prior ∧ r.freed = ((tr tms).2).toList) ∧
    (r.ret = PowerError.success →
      r.slot = some ((tr tms).2) ∧ r.freed = []) := by
  simp only [power_receive_with_timeout] at h
  split at h
  · obtain rfl := Option.some.inj h
    exact ⟨fun _ => ⟨rfl, rfl⟩, fun hs => PowerError.noConfusion hs⟩
  · rename_i hcond
    rw [not_or, not_ne_iff] at hcond
    obtain rfl := Option.some.inj h
    exact ⟨fun hns => absurd hcond.1 hns, fun _ => ⟨rfl, rfl⟩⟩

/-- C9 witness at a concrete input. -/
theorem c9_receive_failure_frame_witness :
    ({ ret := PowerError.muxError, slot := some none,
       freed := [[("partial", PlistVal.uint 0)]],
       transportCalled := true } : ReceiveResult).slot = some none := by
  have h := c9_receive_failure_frame ⟨none⟩ none
    (fun _ => (PropertyListServiceError.muxError, some [("partial", PlistVal.uint 0)]))
    800
    { ret := PowerError.muxError, slot := some none,
      freed := [[("partial", PlistVal.uint 0)]], transportCalled := true } rfl
  exact (h.1 (by decide)).1

/-- C10: `power_client_new` overwrites a (non-null) client slot with `NULL`
before its validation runs: the result never depends on the slot's prior
contents, every non-success return leaves the slot `NULL`, and the slot never
holds its prior value on return (given that the freshly allocated client
differs from the prior pointer, which `malloc` guarantees). -/
theorem c10_client_new_zeroes_slot_first (d : Option Device)
    (s : Option ServiceDescriptor) (prior : Option PowerClientPriv)
    (t : PropertyListServiceError × Option PLClient) (r : NewResult)
    (h : power_client_new d s (some prior) t = some r) :
    (∀ prior2, power_client_new d s (some prior2) t = power_client_new d s (some prior) t) ∧
    (r.ret ≠ PowerError.success → r.slot = none) ∧
    (∀ v, prior = some v → PowerClientPriv.mk t.2 ≠ v → r.slot ≠ some v) := by
  refine ⟨fun _ => rfl, ?_, ?_⟩ <;>
  · simp only [power_client_new] at h
    split at h
    · obtain rfl := Option.some.inj h
      first
      | exact fun _ => rfl
      | exact fun v _ _ hx => Option.noConfusion hx
    · split at h
      · obtain rfl := Option.some.inj h
        first
        | exact fun _ => rfl
        | exact fun v _ _ hx => Option.noConfusion hx
      · obtain rfl := Option.some.inj h
        first
        | exact fun hns => absurd rfl hns
        | exact fun v hv hne hx => hne (by simpa using hx)

/-- C10 witness at a concrete input. -/
theorem c10_client_new_zeroes_slot_first_witness :
    ({ ret := PowerError.invalidArg, slot := none, transportCalled := false } :
      NewResult).slot = none := by
  have h := c10_client_new_zeroes_slot_first none (some ⟨1⟩)
    (some { parent := some ⟨7⟩ }) (PropertyListServiceError.success, some ⟨3⟩)
    { ret := PowerError.invalidArg, slot := none, transportCalled := false } rfl
  exact h.2.1 (by decide)

/-- C3 (refuted by the code, kept as the code's actual behaviour at the
failing inputs): `power_send` with a null document performs no local check —
it invokes the transport send primitive with the null document and returns
the translated transport code; `power_receive_with_timeout` with a null
client performs no local check either — it dereferences the null handle
(modelled as the crash result `none`) instead of returning
`POWER_E_INVALID_ARG`; `power_client_new` with a null session descriptor is
the only one of the three that returns a local `POWER_E_INVALID_ARG` without
touching the transport. -/
theorem c3_send_receive_skip_validation :
    (power_send (some ⟨none⟩) (fun _ => PropertyListServiceError.muxError) none =
      some { ret := PowerError.muxError, transportCalled := true }) ∧
    (power_receive_with_timeout none (some none)
        (fun _ => (PropertyListServiceError.success, some [])) 1000 = none) ∧
    (power_client_new (some ⟨0⟩) none (some none)
        (PropertyListServiceError.success, some ⟨0⟩) =
      some { ret := PowerError.invalidArg, slot := none, transportCalled := false }) := by
  exact ⟨rfl, rfl, rfl⟩

/-- C4 counterexample: with an otherwise-valid call whose client output slot
is pre-populated, `power_client_new` does not return `POWER_E_INVALID_ARG` —
it proceeds, invokes the transport, allocates a client and returns success;
and `power_receive_with_timeout` with a pre-populated document slot performs
the receive and succeeds, overwriting the slot. -/
theorem c4_prepopulated_slot_not_rejected :
    (power_client_new (some ⟨0⟩) (some ⟨1⟩)
        (some (some { parent := some ⟨7⟩ }))
        (PropertyListServiceError.success, some ⟨3⟩) =
      some { ret := PowerError.success, slot := some { parent := some ⟨3⟩ },
             transportCalled := true }) ∧
    PowerError.success ≠ PowerError.invalidArg ∧
    (power_receive_with_timeout (some ⟨none⟩)
        (some (some [("stale", PlistVal.uint 0)]))
        (fun _ => (PropertyListServiceError.success, some [("ack", PlistVal.uint 1)]))
        1000 =
      some { ret := PowerError.success, slot := some (some [("ack", PlistVal.uint 1)]),
             freed := [], transportCalled := true }) := by
  exact ⟨rfl, by decide, rfl⟩

/-- C4 amended: a pre-populated output slot has no effect on either
operation: `power_client_new` behaves identically for any prior slot
contents (it zeroes the slot before validating), and
`power_receive_with_timeout` never reads its document slot — the returned
code, the internally freed documents and the fact that the transport receive
is attempted are the same for any prior slot contents. -/
theorem c4_amended_prepopulated_slot_ignored (d : Option Device)
    (s : Option ServiceDescriptor) (prior prior2 : Option PowerClientPriv)
    (t : PropertyListServiceError × Option PLClient) (c : PowerClientPriv)
    (pl pl2 : Option Plist) (tr : Nat → PropertyListServiceError × Option Plist)
    (tms : Nat) (r r2 : ReceiveResult)
    (h : power_receive_with_timeout (some c) (some pl) tr tms = some r)
    (h2 : power_receive_with_timeout (some c) (some pl2) tr tms = some r2) :
    power_client_new d s (some prior) t = power_client_new d s (some prior2) t ∧
    r.ret = r2.ret ∧ r.freed = r2.freed ∧
    r.transportCalled = true ∧ r2.transportCalled = true := by
  refine ⟨rfl, ?_⟩
  simp only [power_receive_with_timeout] at h h2
  by_cases hc : power_error (tr tms).1 ≠ PowerError.success ∨ (tr tms).2 = none
  · rw [if_pos hc] at h h2
    obtain rfl := Option.some.inj h
    obtain rfl := Option.some.inj h2
    exact ⟨rfl, rfl, rfl, rfl⟩
  · rw [if_neg hc] at h h2
    obtain rfl := Option.some.inj h
    obtain rfl := Option.some.inj h2
    exact ⟨rfl, rfl, rfl, rfl⟩

/-- C4 amended witness at a concrete input. -/
theorem c4_amended_prepopulated_slot_ignored_witness :
    power_client_new (some ⟨0⟩) (some ⟨1⟩) (some (some { parent := some ⟨7⟩ }))
        (PropertyListServiceError.success, some ⟨3⟩) =
      power_client_new (some ⟨0⟩) (some ⟨1⟩) (some none)
        (PropertyListServiceError.success, some ⟨3⟩) := by
  have h := c4_amended_prepopulated_slot_ignored (some ⟨0⟩) (some ⟨1⟩)
    (some { parent := some ⟨7⟩ }) none
    (PropertyListServiceError.success, some ⟨3⟩) ⟨none⟩
    (some [("stale", PlistVal.uint 0)]) none
    (fun _ => (PropertyListServiceError.success, some [("ack", PlistVal.uint 1)])) 1000
    { ret := PowerError.success, slot := some (some [("ack", PlistVal.uint 1)]),
      freed := [], transportCalled := true }
    { ret := PowerError.success, slot := some (some [("ack", PlistVal.uint 1)]),
      freed := [], transportCalled := true } rfl rfl
  exact h.1

/-! ## Evaluation lemmas for the driver's calls into the client layer -/

/-- Evaluate `power_client_new` as the driver calls it, when the transport
client creation fails. -/
theorem client_new_eval_fail (sp : Nat) (hsp : ¬ sp = 0)
    (cn : PropertyListServiceError × Option PLClient)
    (hcn : power_error cn.1 ≠ PowerError.success) :
    power_client_new (some ⟨0⟩) (some ⟨sp⟩) (some none) cn =
      some { ret := power_error cn.1, slot := none, transportCalled := true } := by
  simp [power_client_new, hsp, hcn]

/-- Evaluate `power_client_new` as the driver calls it, when the transport
client creation succeeds. -/
theorem client_new_eval_ok (sp : Nat) (hsp : ¬ sp = 0)
    (cn : PropertyListServiceError × Option PLClient)
    (hcn : power_error cn.1 = PowerError.success) :
    power_client_new (some ⟨0⟩) (some ⟨sp⟩) (some none) cn =
      some { ret := PowerError.success, slot := some ⟨cn.2⟩, transportCalled := true } := by
  simp [power_client_new, hsp, hcn]

/-- A success return of the `power_client_new` call the driver makes forces
a successful transport client creation. -/
theorem client_new_success_code (sp : Nat)
    (cn : PropertyListServiceError × Option PLClient) (r : NewResult)
    (h : power_client_new (some ⟨0⟩) (some ⟨sp⟩) (some none) cn = some r)
    (hret : r.ret = PowerError.success) :
    power_error cn.1 = PowerError.success ∧ r.slot = some ⟨cn.2⟩ := by
  simp only [power_client_new] at h
  split at h
  · obtain rfl := Option.some.inj h
    exact absurd hret (by decide)
  · split at h
    · obtain rfl := Option.some.inj h
      rename_i hne
      exact absurd hret hne
    · obtain rfl := Option.some.inj h
      exact ⟨not_ne_iff.mp (by assumption), rfl⟩

/-- Evaluate `power_receive_with_timeout` through a valid client and slot
when the transport outcome lands in the failure branch. -/
theorem receive_eval_fail (c : PowerClientPriv) (pl : Option Plist)
    (tr : Nat → PropertyListServiceError × Option Plist) (tms : Nat)
    (h : power_error (tr tms).1 ≠ PowerError.success ∨ (tr tms).2 = none) :
    power_receive_with_timeout (some c) (some pl) tr tms =
      some { ret := PowerError.muxError, slot := some pl,
             freed := ((tr tms).2).toList, transportCalled := true } := by
  simp only [power_receive_with_timeout]
  rw [if_pos h]

/-- Evaluate `power_receive_with_timeout` through a valid client and slot
when the transport delivers a document with a success code. -/
theorem receive_eval_ok (c : PowerClientPriv) (pl : Option Plist)
    (tr : Nat → PropertyListServiceError × Option Plist) (tms : Nat)
    (h1 : power_error (tr tms).1 = PowerError.success) (h2 : ¬ (tr tms).2 = none) :
    power_receive_with_timeout (some c) (some pl) tr tms =
      some { ret := PowerError.success, slot := some ((tr tms).2),
             freed := [], transportCalled := true } := by
  simp only [power_receive_with_timeout]
  rw [if_neg (by rw [not_or, not_ne_iff]; exact ⟨h1, h2⟩)]
  rw [← h1]

/-- A success return of a receive through a valid client and slot forces a
successful transport code and a delivered document. -/
theorem receive_success_code (c : PowerClientPriv) (pl : Option Plist)
    (tr : Nat → PropertyListServiceError × Option Plist) (tms : Nat)
    (rcv : ReceiveResult)
    (h : power_receive_with_timeout (some c) (some pl) tr tms = some rcv)
    (hret : rcv.ret = PowerError.success) :
    power_error (tr tms).1 = PowerError.success ∧ ¬ (tr tms).2 = none := by
  simp only [power_receive_with_timeout] at h
  split at h
  · obtain rfl := Option.some.inj h
    exact PowerError.noConfusion hret
  · rename_i hcond
    rw [not_or, not_ne_iff] at hcond
    exact hcond

/-- Full case analysis of one driver run (`driver_main`): an unknown
sub-command fails with the generic failure status and no device resolution;
a failed external stage (device lookup, handshake, service start, zero port,
client connection) fails after resolution began; once the client is
connected the run sends the built assertion document, performs the hold
sleep, and exits 0 exactly when the send and the receive acknowledgement
both succeed. -/
theorem driver_main_cases (cmdArg : String) (t : Nat) (env : DriverEnv) :
    (parseCmd cmdArg = CmdMode.cmdNone ∧ driver_main cmdArg t env = driverFail false) ∨
    (parseCmd cmdArg ≠ CmdMode.cmdNone ∧ driver_main cmdArg t env = driverFail true ∧
      ¬(env.ideviceNew = true ∧ env.lockdownHandshake = true ∧
        env.lockdownStart = true ∧ env.servicePort ≠ 0 ∧
        power_error env.clientNew.1 = PowerError.success)) ∨
    (parseCmd cmdArg ≠ CmdMode.cmdNone ∧
      env.ideviceNew = true ∧ env.lockdownHandshake = true ∧
      env.lockdownStart = true ∧ env.servicePort ≠ 0 ∧
      power_error env.clientNew.1 = PowerError.success ∧
      driver_main cmdArg t env =
        { exitCode :=
            if power_error (env.sendTransport (some (buildAssertion (parseCmd cmdArg) t))) =
                 PowerError.success ∧
               power_error (env.recvTransport 1000).1 = PowerError.success ∧
               ¬ (env.recvTransport 1000).2 = none
            then 0 else 1,
          resolutionAttempted := true,
          sentDoc := some (buildAssertion (parseCmd cmdArg) t),
          sleepSeconds := some (if 10 < t then t - 10 else t) }) := by
  by_cases hc : parseCmd cmdArg = CmdMode.cmdNone
  · exact Or.inl ⟨hc, by simp [driver_main, hc]⟩
  by_cases h1 : env.ideviceNew = true
  case neg =>
    rw [Bool.not_eq_true] at h1
    exact Or.inr (Or.inl ⟨hc, by simp [driver_main, hc, h1],
      fun hx => by rw [hx.1] at h1; exact Bool.noConfusion h1⟩)
  by_cases h2 : env.lockdownHandshake = true
  case neg =>
    rw [Bool.not_eq_true] at h2
    exact Or.inr (Or.inl ⟨hc, by simp [driver_main, hc, h1, h2],
      fun hx => by rw [hx.2.1] at h2; exact Bool.noConfusion h2⟩)
  by_cases h3 : env.lockdownStart = true
  case neg =>
    rw [Bool.not_eq_true] at h3
    exact Or.inr (Or.inl ⟨hc, by simp [driver_main, hc, h1, h2, h3],
      fun hx => by rw [hx.2.2.1] at h3; exact Bool.noConfusion h3⟩)
  by_cases h4 : env.servicePort = 0
  case pos =>
    exact Or.inr (Or.inl ⟨hc, by simp [driver_main, hc, h1, h2, h3, h4],
      fun hx => hx.2.2.2.1 h4⟩)
  by_cases hcn : power_error env.clientNew.1 = PowerError.success
  case neg =>
    refine Or.inr (Or.inl ⟨hc, ?_, fun hx => hcn hx.2.2.2.2⟩)
    simp [driver_main, hc, h1, h2, h3, h4, client_new_eval_fail _ h4 _ hcn, hcn]
  refine Or.inr (Or.inr ⟨hc, h1, h2, h3, h4, hcn, ?_⟩)
  by_cases hs : power_error (env.sendTransport (some (buildAssertion (parseCmd cmdArg) t))) =
      PowerError.success
  case neg =>
    simp [driver_main, hc, h1, h2, h3, h4, client_new_eval_ok _ h4 _ hcn,
      power_send, hs]
  by_cases hr1 : power_error (env.recvTransport 1000).1 = PowerError.success
  case neg =>
    rw [driver_main]
    simp only [hc, if_neg hc, h1, h2, h3, h4, Bool.true_eq_false, if_neg,
      client_new_eval_ok _ h4 _ hcn]
    simp [power_send, hs, power_receive,
      receive_eval_fail _ _ _ _ (Or.inl hr1), hr1]
  by_cases hr2 : (env.recvTransport 1000).2 = none
  case pos =>
    rw [driver_main]
    simp only [hc, if_neg hc, h1, h2, h3, h4, Bool.true_eq_false, if_neg,
      client_new_eval_ok _ h4 _ hcn]
    simp [power_send, hs, power_receive,
      receive_eval_fail _ _ _ _ (Or.inr hr2), hs, hr2]
  rw [driver_main]
  simp only [hc, if_neg hc, h1, h2, h3, h4, Bool.true_eq_false, if_neg,
    client_new_eval_ok _ h4 _ hcn]
  simp [power_send, hs, power_receive, receive_eval_ok _ _ _ _ hr1 hr2, hr1, hr2]

/-- A fully successful driver environment: every external stage succeeds and
the transport acknowledges the request with a non-empty document. -/
def envAllOk : DriverEnv where
  ideviceNew := true
  lockdownHandshake := true
  lockdownStart := true
  servicePort := 1
  clientNew := (PropertyListServiceError.success, some ⟨0⟩)
  sendTransport := fun _ => PropertyListServiceError.success
  recvTransport := fun _ => (PropertyListServiceError.success, some [("ack", PlistVal.uint 1)])

/-- C6: for every requested timeout `t > 0`, whenever the driver reaches the
send/receive exchange — whatever the exchange's outcome — it sleeps for
`t - 10` seconds when `t` exceeds 10 and for the full `t` seconds
otherwise. -/
theorem c6_driver_hold_duration (cmdArg : String) (t : Nat) (env : DriverEnv)
    (h0 : 0 < t) (h : (driver_main cmdArg t env).sentDoc ≠ none) :
    (driver_main cmdArg t env).sleepSeconds = some (if 10 < t then t - 10 else t) := by
  rcases driver_main_cases cmdArg t env with ⟨_, he⟩ | ⟨_, he, _⟩ | ⟨_, _, _, _, _, _, he⟩
  · rw [he] at h
    exact absurd rfl h
  · rw [he] at h
    exact absurd rfl h
  · rw [he]

/-- C6 witness at a concrete input: sub-command `sleep`, timeout 5 (at most
10) makes the driver sleep the full 5 seconds. -/
theorem c6_driver_hold_duration_witness :
    0 < 5 ∧ (driver_main "sleep" 5 envAllOk).sleepSeconds = some 5 := by
  refine ⟨by decide, ?_⟩
  have h := c6_driver_hold_duration "sleep" 5 envAllOk (by decide) (by decide)
  simpa using h

/-- C8: whenever the driver invoked with sub-command `idle` and timeout 30
sends a request document, that document is exactly the dictionary holding
the create-assertion command, `AssertionTypeKey = "PreventUserIdleSystemSleep"`,
the fixed assertion name, `AssertionTimeoutKey = 30` and the fixed detail
string. -/
theorem c8_idle_request_document (env : DriverEnv)
    (h : (driver_main "idle" 30 env).sentDoc ≠ none) :
    (driver_main "idle" 30 env).sentDoc =
      some [("CommandKey", PlistVal.str "CommandCreateAssertion"),
            ("AssertionTypeKey", PlistVal.str "PreventUserIdleSystemSleep"),
            ("AssertionNameKey", PlistVal.str "idevicepower"),
            ("AssertionTimeoutKey", PlistVal.uint 30),
            ("AssertionDetailKey", PlistVal.str "power update")] := by
  rcases driver_main_cases "idle" 30 env with ⟨_, he⟩ | ⟨_, he, _⟩ | ⟨_, _, _, _, _, _, he⟩
  · rw [he] at h
    exact absurd rfl h
  · rw [he] at h
    exact absurd rfl h
  · rw [he]
    rfl

/-- C8 witness at a concrete input. -/
theorem c8_idle_request_document_witness :
    (driver_main "idle" 30 envAllOk).sentDoc =
      some [("CommandKey", PlistVal.str "CommandCreateAssertion"),
            ("AssertionTypeKey", PlistVal.str "PreventUserIdleSystemSleep"),
            ("AssertionNameKey", PlistVal.str "idevicepower"),
            ("AssertionTimeoutKey", PlistVal.uint 30),
            ("AssertionDetailKey", PlistVal.str "power update")] :=
  c8_idle_request_document envAllOk (by decide)

/-- C7 counterexample: invoked with the unknown sub-command `foo`, the
driver exits with the generic failure status 1 (`EXIT_FAILURE` reached via
`goto cleanup`), not with the usage status 2 the claim states — though
indeed without attempting device resolution. -/
theorem c7_unknown_command_exits_one :
    (driver_main "foo" 60 envAllOk).exitCode = 1 ∧
    ¬ (driver_main "foo" 60 envAllOk).exitCode = 2 ∧
    (driver_main "foo" 60 envAllOk).resolutionAttempted = false := by
  decide

/-- C7 amended: the driver's exit status is 0 exactly when the power client
connects and both `power_send` and `power_receive` succeed; it is 1 on any
resolution, handshake, connection, send or receive failure; and an unknown
sub-command exits with the generic failure status 1 — not 2 — without any
device resolution being attempted. -/
theorem c7_amended_driver_exit_status (cmdArg : String) (t : Nat) (env : DriverEnv) :
    ((driver_main cmdArg t env).exitCode = 0 ∨ (driver_main cmdArg t env).exitCode = 1) ∧
    ((driver_main cmdArg t env).exitCode = 0 ↔
      (parseCmd cmdArg ≠ CmdMode.cmdNone ∧
       env.ideviceNew = true ∧ env.lockdownHandshake = true ∧
       env.lockdownStart = true ∧ env.servicePort ≠ 0 ∧
       ∃ r s rcv,
         power_client_new (some ⟨0⟩) (some ⟨env.servicePort⟩) (some none) env.clientNew =
           some r ∧
         r.ret = PowerError.success ∧
         power_send r.slot env.sendTransport
           (some (buildAssertion (parseCmd cmdArg) t)) = some s ∧
         s.ret = PowerError.success ∧
         power_receive r.slot (some none) env.recvTransport = some rcv ∧
         rcv.ret = PowerError.success)) ∧
    (parseCmd cmdArg = CmdMode.cmdNone →
      (driver_main cmdArg t env).exitCode = 1 ∧
      (driver_main cmdArg t env).resolutionAttempted = false) := by
  rcases driver_main_cases cmdArg t env with ⟨hcnone, he⟩ | ⟨hcsome, he, hng⟩ |
    ⟨hcsome, h1, h2, h3, h4, hcn, he⟩
  · refine ⟨Or.inr (by rw [he]; rfl), iff_of_false (by rw [he]; decide)
      (fun hx => hx.1 hcnone), fun _ => ⟨by rw [he]; rfl, by rw [he]; rfl⟩⟩
  · refine ⟨Or.inr (by rw [he]; rfl), iff_of_false (by rw [he]; decide) ?_,
      fun hx => absurd hx hcsome⟩
    rintro ⟨_, hdn, hlh, hls, hsp, r, s, rcv, hr, hrret, -⟩
    exact hng ⟨hdn, hlh, hls, hsp, (client_new_success_code _ _ _ hr hrret).1⟩
  · by_cases hP : power_error (env.sendTransport (some (buildAssertion (parseCmd cmdArg) t))) =
        PowerError.success ∧
        power_error (env.recvTransport 1000).1 = PowerError.success ∧
        ¬ (env.recvTransport 1000).2 = none
    · refine ⟨Or.inl (by rw [he]; simp [hP]), ?_, fun hx => absurd hx hcsome⟩
      refine iff_of_true (by rw [he]; simp [hP]) ⟨hcsome, h1, h2, h3, h4, ?_⟩
      refine ⟨{ ret := PowerError.success, slot := some ⟨env.clientNew.2⟩,
                transportCalled := true },
        { ret := power_error (env.sendTransport
            (some (buildAssertion (parseCmd cmdArg) t))), transportCalled := true },
        { ret := PowerError.success, slot := some ((env.recvTransport 1000).2),
          freed := [], transportCalled := true },
        client_new_eval_ok _ h4 _ hcn, rfl, rfl, hP.1, ?_, rfl⟩
      rw [power_receive]
      exact receive_eval_ok _ _ _ _ hP.2.1 hP.2.2
    · refine ⟨Or.inr (by rw [he]; simp [hP]), ?_, fun hx => absurd hx hcsome⟩
      refine iff_of_false (by rw [he]; simp [hP]) ?_
      rintro ⟨-, -, -, -, -, r, s, rcv, hr, hrret, hsend, hsret, hrecv, hrret2⟩
      obtain ⟨-, hslot⟩ := client_new_success_code _ _ _ hr hrret
      rw [hslot] at hsend hrecv
      simp only [power_send] at hsend
      obtain rfl := Option.some.inj hsend
      rw [power_receive] at hrecv
      obtain ⟨hrc, hrd⟩ := receive_success_code _ _ _ _ _ hrecv hrret2
      exact hP ⟨hsret, hrc, hrd⟩

end LibPower
